import Mathlib

/-
  Verification of the equipment-rental reservation calendar and status
  pipeline.  The definitions below are a shallow embedding of the
  TypeScript sources:
    - src/project/src/components/admin/ReservationCalendar.tsx
      (occupancy grid: query, clipping, placement, labels)
    - the Pipeline component (drag-and-drop status pipeline,
      change subscription, status mutations)
    - src/project/src/components/CustomerDetailsView.tsx
      (status mutation with a submitting flag)
  Dates are midnight-aligned JS Date values; a date is modelled by its
  epoch day number (the timestamp divided by 86400000), together with
  the values of getDate() and getMonth(), which the source reads off
  the same object.  For midnight-aligned dates the JS expression
  Math.ceil((end.getTime() - start.getTime()) / 86400000) is exactly
  the difference of epoch day numbers, which is how it is embedded.
-/

namespace Solrent

/-- Model of a midnight-aligned JS Date: `abs` is the epoch day number
(getTime() / 86400000), `dom` the value of getDate(), `mon` the value of
getMonth(). -/
structure JSDate where
  abs : Int
  dom : Int
  mon : Int
deriving DecidableEq, Repr

/-- Customer subobject selected by the calendar query. -/
structure Customer where
  first_name : String
  last_name : String
deriving DecidableEq, Repr

/-- Reservation row as selected by loadReservations in
ReservationCalendar.tsx; reservation_items is the list of equipment ids
of the joined reservation_items rows. -/
structure Reservation where
  id : String
  customer : Customer
  start_date : JSDate
  end_date : JSDate
  start_time : String
  end_time : String
  status : String
  reservation_items : List String
deriving DecidableEq, Repr

/-- Equipment row (id, name). -/
structure Equipment where
  id : String
  name : String
deriving DecidableEq, Repr

/-- Visible month window: monthStart is the first day of the displayed
month (its dom is 1) and monthEnd its last day, as built in
loadReservations from currentDate. -/
structure Window where
  monthStart : JSDate
  monthEnd : JSDate
deriving DecidableEq, Repr

/-- Source getDaysInMonth: the getDate() of the last day of the month. -/
def getDaysInMonth (w : Window) : Int :=
  w.monthEnd.dom

/-- Predicate of the supabase query in loadReservations:
gte start_date monthStart, lte end_date monthEnd, neq status cancelled,
and the inner join on reservation_items requires at least one item. -/
def reservationQueryPred (w : Window) (r : Reservation) : Bool :=
  decide (w.monthStart.abs ≤ r.start_date.abs) &&
  decide (r.end_date.abs ≤ w.monthEnd.abs) &&
  !(r.status == "cancelled") &&
  !r.reservation_items.isEmpty

/-- Source loadReservations: the rows of the reservations table that
satisfy the query predicate, in table order. -/
def loadReservations (db : List Reservation) (w : Window) : List Reservation :=
  db.filter (reservationQueryPred w)

/-- Spec-side predicate (for the refinement comparison of claim C1):
the reservation interval intersects the closed window
[windowStart, windowEnd]. -/
def specIntersectsWindow (w : Window) (r : Reservation) : Bool :=
  decide (r.start_date.abs ≤ w.monthEnd.abs) &&
  decide (w.monthStart.abs ≤ r.end_date.abs)

/-- Result of getReservationSpan. -/
structure Span where
  startDay : Int
  endDay : Int
  span : Int
deriving DecidableEq, Repr

/-- Source getReservationSpan: clip the reservation to the month.
startDay is 1 when the reservation starts before the month, otherwise
the getDate() of its start; endDay is the last day of the month when
the reservation ends after the month, otherwise the getDate() of its
end; span is endDay - startDay + 1. -/
def getReservationSpan (r : Reservation) (w : Window) : Span :=
  { startDay := if r.start_date.abs < w.monthStart.abs then 1 else r.start_date.dom
    endDay := if w.monthEnd.abs < r.end_date.abs then w.monthEnd.dom else r.end_date.dom
    span := (if w.monthEnd.abs < r.end_date.abs then w.monthEnd.dom else r.end_date.dom) -
            (if r.start_date.abs < w.monthStart.abs then 1 else r.start_date.dom) + 1 }

/-- Source formatCustomerName: last name, a space, first name. -/
def formatCustomerName (firstName lastName : String) : String :=
  lastName ++ " " ++ firstName

/-- Day difference between two midnight-aligned JS dates; this is the
value of Math.ceil((e.getTime() - s.getTime()) / 86400000) in the
source, which is exact for midnight-aligned dates. -/
def ceilDiffDays (s e : JSDate) : Int :=
  e.abs - s.abs

/-- Source formatDateRange: full range with times when the day
difference is at least 4, otherwise the short dom-dash-dom range. -/
def formatDateRange (startDate endDate : JSDate) (startTime endTime : String) : String :=
  if 4 ≤ ceilDiffDays startDate endDate then
    toString startDate.dom ++ "." ++ toString (startDate.mon + 1) ++ " " ++ startTime ++
      " - " ++ toString endDate.dom ++ "." ++ toString (endDate.mon + 1) ++ " " ++ endTime
  else
    toString startDate.dom ++ "-" ++ toString endDate.dom

/-- Source getReservationContent: label of a placed reservation, keyed
on the day difference computed by naive date subtraction; the
isMultiDay argument is accepted and ignored, as in the source. -/
def getReservationContent (r : Reservation) (cellWidth : Int) (isMultiDay : Bool) : String :=
  if 4 ≤ ceilDiffDays r.start_date r.end_date then
    formatCustomerName r.customer.first_name r.customer.last_name ++ "\n" ++
      formatDateRange r.start_date r.end_date r.start_time r.end_time
  else if 2 ≤ ceilDiffDays r.start_date r.end_date ∧ ceilDiffDays r.start_date r.end_date ≤ 3 then
    (if cellWidth < 100 then
        r.customer.last_name ++ " " ++ r.customer.first_name.take 1 ++ "."
      else
        r.customer.last_name ++ " " ++ r.customer.first_name) ++ "\n" ++
      formatDateRange r.start_date r.end_date r.start_time r.end_time
  else
    r.customer.last_name ++ "\n" ++ toString r.start_date.dom

/-- Amended label policy of claim C3: identical branch bodies, with the
thresholds restated over the inclusive span length in days
(ceilDiffDays + 1): length at least 5 gives the full format, length 3
or 4 the middle format, length at most 2 the surname plus day number. -/
def amendedLabelPolicy (r : Reservation) (cellWidth : Int) : String :=
  if 5 ≤ ceilDiffDays r.start_date r.end_date + 1 then
    formatCustomerName r.customer.first_name r.customer.last_name ++ "\n" ++
      formatDateRange r.start_date r.end_date r.start_time r.end_time
  else if 3 ≤ ceilDiffDays r.start_date r.end_date + 1 then
    (if cellWidth < 100 then
        r.customer.last_name ++ " " ++ r.customer.first_name.take 1 ++ "."
      else
        r.customer.last_name ++ " " ++ r.customer.first_name) ++ "\n" ++
      formatDateRange r.start_date r.end_date r.start_time r.end_time
  else
    r.customer.last_name ++ "\n" ++ toString r.start_date.dom

/-- Line filter of the render loop: reservations whose
reservation_items contain the equipment id of the row. -/
def itemReservations (reservations : List Reservation) (equipmentId : String) : List Reservation :=
  reservations.filter fun r => r.reservation_items.any fun ri => ri == equipmentId

/-- Coverage test of the render loop: day (1-based) lies between the
clipped startDay and endDay of the reservation. -/
def coversDay (r : Reservation) (w : Window) (day : Int) : Bool :=
  decide ((getReservationSpan r w).startDay ≤ day) &&
  decide (day ≤ (getReservationSpan r w).endDay)

/-- Output of one day cell of the grid: either the anchored span of a
reservation with its day length, a continuation cell of a span that is
not independently rendered (the render loop returns null), or an empty
cell. -/
inductive Cell where
  | span (r : Reservation) (len : Int)
  | continuation
  | empty
deriving DecidableEq, Repr

/-- Cell body of the render loop in ReservationCalendar.tsx: find the
first reservation of the line whose clipped span covers the day; render
its span when the day is its startDay, render nothing when the day is a
later day of the found span, and an empty cell otherwise. -/
def cellRender (reservations : List Reservation) (equipmentId : String) (w : Window) (dayIndex : Int) : Cell :=
  match (itemReservations reservations equipmentId).find? (fun r => coversDay r w (dayIndex + 1)) with
  | some r =>
      if dayIndex + 1 = (getReservationSpan r w).startDay then
        Cell.span r (getReservationSpan r w).span
      else
        Cell.continuation
  | none => Cell.empty

/-- Whole-grid view of the render loop: one row per equipment line, one
cell per day of the month. -/
def buildGrid (equipment : List Equipment) (reservations : List Reservation) (w : Window) : List (List Cell) :=
  equipment.map fun e =>
    (List.range (getDaysInMonth w).toNat).map fun i =>
      cellRender reservations e.id w (Int.ofNat i)

namespace Pipeline

/-- Pipeline card; the drag and status handlers only consult the id
field, the remaining card fields are presentation only. -/
structure PipelineReservation where
  id : String
deriving DecidableEq, Repr

/-- Pipeline column: status id, title, and the cards currently in the
column. -/
structure PipelineColumn where
  id : String
  title : String
  reservations : List PipelineReservation
deriving DecidableEq, Repr

/-- Source findReservation: scan the columns in order and return the
first card whose id matches. -/
def findReservation (columns : List PipelineColumn) (rid : String) : Option PipelineReservation :=
  match columns with
  | [] => none
  | column :: rest =>
      match column.reservations.find? (fun r => r.id == rid) with
      | some r => some r
      | none => findReservation rest rid

/-- Claim-side helper: the id of the column that currently holds the
reservation (the first column containing a card with that id). -/
def columnOfReservation (columns : List PipelineColumn) (rid : String) : Option String :=
  match columns with
  | [] => none
  | column :: rest =>
      if column.reservations.any (fun r => r.id == rid) then some column.id
      else columnOfReservation rest rid

/-- Source handleDragEnd: when there is a drop target, look up the
dragged card; a mutation (reservation id, new status) is issued exactly
when the card exists and its id differs from the drop target id.  The
current column of the card is never consulted. -/
def handleDragEnd (columns : List PipelineColumn) (activeId : String) (over : Option String) : Option (String × String) :=
  match over with
  | none => none
  | some overId =>
      match findReservation columns activeId with
      | some activeReservation =>
          if activeReservation.id == overId then none
          else some (activeReservation.id, overId)
      | none => none

/-- Log of mutations issued to the persistence collaborator by the
pipeline handlers. -/
structure MutationLog where
  calls : List (String × String)
deriving DecidableEq, Repr

/-- Source handleStatusChange of the Pipeline component: it issues the
update_reservation_pipeline_status rpc unconditionally; there is no
in-flight guard of any kind in the handler. -/
def handleStatusChange (s : MutationLog) (reservationId newStatus : String) : MutationLog :=
  { calls := s.calls ++ [(reservationId, newStatus)] }

/-- Source loadPipelineData, as invoked on every change notification:
on a successful fetch carrying columns the previous columns are
replaced by the fetched ones; a fetch without columns replaces them by
the empty list; a failed fetch leaves the previous columns and sets an
error message. -/
def loadPipelineData (prev : List PipelineColumn) (resp : Except Unit (Option (List PipelineColumn))) : List PipelineColumn :=
  match resp with
  | Except.error _ => prev
  | Except.ok none => []
  | Except.ok (some cols) => cols

/-- Source subscribeToUpdates: every postgres change event on the
reservations table triggers a fresh loadPipelineData. -/
def onReservationsChange (prev : List PipelineColumn) (resp : Except Unit (Option (List PipelineColumn))) : List PipelineColumn :=
  loadPipelineData prev resp

end Pipeline

namespace CustomerDetailsView

/-- Local state of CustomerDetailsView relevant to handleStatusChange:
the submitting flag (used only to disable buttons in the view) and the
log of update_reservation_status mutations issued. -/
structure DetailsState where
  submitting : Bool
  calls : List (String × String × String)
deriving DecidableEq, Repr

/-- Source handleStatusChange of CustomerDetailsView: set submitting
and issue the update_reservation_status rpc with the generated comment;
the handler itself never checks the submitting flag, so every
invocation issues a mutation. -/
def handleStatusChange (s : DetailsState) (rid newStatus : String) : DetailsState :=
  { submitting := true
    calls := s.calls ++ [(rid, newStatus, "Status zmieniony na: " ++ newStatus)] }

end CustomerDetailsView

/-- Example window for claim C1: the displayed month spans epoch days
31 to 60 (its first day has dom 1). -/
def exW1 : Window := ⟨⟨31, 1, 1⟩, ⟨60, 30, 1⟩⟩

/-- Example reservation for claim C1: it starts three days before the
displayed month and ends on day 5 of it, so it intersects the window
without being contained in it. -/
def exR1q : Reservation :=
  ⟨"r-c1", ⟨"Jan", "Kowalski"⟩, ⟨28, 28, 0⟩, ⟨35, 5, 1⟩, "08:00", "16:00", "pending", ["e1"]⟩

/-- Example window for claims C2, C7, C9, C10: a month of 31 days whose
first day is epoch day 1, so dom and epoch day coincide. -/
def exW2 : Window := ⟨⟨1, 1, 0⟩, ⟨31, 31, 0⟩⟩

/-- Example reservation R1 of claim C2: days 1 to 5 on line e1. -/
def exR21 : Reservation :=
  ⟨"r1", ⟨"Anna", "Nowak"⟩, ⟨1, 1, 0⟩, ⟨5, 5, 0⟩, "08:00", "16:00", "confirmed", ["e1"]⟩

/-- Example reservation R2 of claim C2: days 3 to 7 on line e1,
overlapping R1 on days 3 to 5. -/
def exR22 : Reservation :=
  ⟨"r2", ⟨"Jan", "Kowalski"⟩, ⟨3, 3, 0⟩, ⟨7, 7, 0⟩, "08:00", "16:00", "confirmed", ["e1"]⟩

/-- Example reservation of claim C3: inclusive span of 2 days (the 14th
to the 15th) for customer Kowalski. -/
def exR3 : Reservation :=
  ⟨"r-c3", ⟨"Jan", "Kowalski"⟩, ⟨14, 14, 9⟩, ⟨15, 15, 9⟩, "10:00", "12:00", "confirmed", ["e1"]⟩

/-- Helper: find? returns the designated element when it is a member,
satisfies the predicate, and is the only member satisfying it. -/
theorem find_eq_some_of_mem_unique {α : Type} (p : α → Bool) :
    ∀ (l : List α) (a : α), a ∈ l → p a = true →
      (∀ b ∈ l, p b = true → b = a) → l.find? p = some a := by
  intro l
  induction l with
  | nil => intro a ha _ _; cases ha
  | cons c t ih =>
    intro a ha hpa huniq
    by_cases hc : p c = true
    · have hca : c = a := huniq c (List.mem_cons_self c t) hc
      subst hca
      exact List.find?_cons_of_pos t hc
    · rw [List.find?_cons_of_neg t hc]
      have hat : a ∈ t := by
        rcases List.mem_cons.mp ha with h | h
        · subst h; exact absurd hpa hc
        · exact h
      exact ih a hat hpa (fun b hb hpb => huniq b (List.mem_cons_of_mem c hb) hpb)

/-- Helper: a span cell can only reference a reservation of the input
list. -/
theorem mem_of_cellRender_span (reservations : List Reservation) (equipmentId : String)
    (w : Window) (i : Int) (r : Reservation) (len : Int)
    (h : cellRender reservations equipmentId w i = Cell.span r len) :
    r ∈ reservations := by
  unfold cellRender at h
  cases hfind : (itemReservations reservations equipmentId).find? (fun r => coversDay r w (i + 1)) with
  | none => rw [hfind] at h; cases h
  | some b =>
    rw [hfind] at h
    dsimp only at h
    have hb : b ∈ itemReservations reservations equipmentId :=
      List.mem_of_find?_eq_some hfind
    have hbr : b = r := by
      by_cases hanch : i + 1 = (getReservationSpan b w).startDay
      · rw [if_pos hanch] at h; cases h; rfl
      · rw [if_neg hanch] at h; cases h
    subst hbr
    exact (List.mem_filter.mp hb).1

/-- C1: the query of loadReservations keeps only reservations fully
contained in the month (start_date at or after windowStart and
end_date at or before windowEnd), so a reservation that merely
intersects the window, starting before windowStart, is excluded and
never reaches the grid, contrary to the claim and to the clipping
branches of getReservationSpan, which handle exactly such
reservations. -/
theorem c1_query_excludes_overlapping_reservation :
    specIntersectsWindow exW1 exR1q = true ∧
    exR1q.reservation_items.any (fun ri => ri == "e1") = true ∧
    reservationQueryPred exW1 exR1q = false ∧
    loadReservations [exR1q] exW1 = [] ∧
    cellRender (loadReservations [exR1q] exW1) "e1" exW1 4 = Cell.empty := by
  refine ⟨rfl, rfl, rfl, rfl, rfl⟩

/-- C2 counterexample: R1 spans days 1 to 5, R2 spans days 3 to 7 on
the same line, and R1 has the earlier true start; day 3 is a
conflicting cell, yet with input order R2 before R1 the builder places
R2 there as an anchored span, so the occupant of the conflicting cells
is not the reservation with the earliest true start date and R2 is not
an unplaced overflow entry. -/
theorem c2_counterexample :
    exR21.start_date.abs < exR22.start_date.abs ∧
    coversDay exR21 exW2 3 = true ∧
    coversDay exR22 exW2 3 = true ∧
    cellRender [exR22, exR21] "e1" exW2 2 = Cell.span exR22 5 := by
  refine ⟨by decide, rfl, rfl, rfl⟩

/-- C2 amended: the builder is a total function (it never crashes);
overlaps are resolved by input-list order, not by earliest true start:
each cell is occupied by the first reservation of the input list whose
visible span covers it, and an overlapping reservation whose visible
start day is covered by an earlier-listed reservation is silently never
emitted; no overflow list exists.  With input order R1 before R2, R1 is
anchored on day 1 with span 5 and R2 is never emitted in any of the 31
cells of the month. -/
theorem c2_amended_list_order_placement :
    cellRender [exR21, exR22] "e1" exW2 0 = Cell.span exR21 5 ∧
    ((List.range 31).all fun i =>
      decide (cellRender [exR21, exR22] "e1" exW2 (Int.ofNat i) ∈
        [Cell.span exR21 5, Cell.continuation, Cell.empty])) = true := by
  refine ⟨rfl, by decide⟩

/-- C3 counterexample: a reservation with inclusive span of 2 days (the
14th to the 15th) is rendered with the one-day format, surname plus day
number, not with the 2-3-day format of surname plus date range required
by the claim. -/
theorem c3_counterexample :
    ceilDiffDays exR3.start_date exR3.end_date + 1 = 2 ∧
    getReservationContent exR3 120 true = "Kowalski\n14" ∧
    getReservationContent exR3 120 true ≠ "Kowalski Jan" ++ "\n" ++ "14-15" := by
  refine ⟨by decide, rfl, by decide⟩

/-- C3 amended: the label is a pure function of the day difference
end minus start computed by naive date subtraction, that is of the
inclusive span length minus one; restated over the inclusive span
length the thresholds are: length at least 5 gives the full customer
name plus the full date range, length 3 or 4 gives the surname plus
first name (initial only when the cell width is below 100) plus the
short date range, and length at most 2 gives the surname plus the day
number. -/
theorem c3_amended_thresholds (r : Reservation) (cellWidth : Int) (isMultiDay : Bool) :
    getReservationContent r cellWidth isMultiDay = amendedLabelPolicy r cellWidth := by
  unfold getReservationContent amendedLabelPolicy
  split_ifs <;> first | rfl | omega

/-- Example pipeline state for claims C4 and C5: one column with id
pending holding the single card r1. -/
def exCols : List Pipeline.PipelineColumn :=
  [⟨"pending", "Oczekujące", [⟨"r1"⟩]⟩]

/-- C4 counterexample: the card r1 currently sits in the pending
column, yet a drag-end over that very column still emits a transition
request, because handleDragEnd compares the reservation id with the
drop target id and never consults the current column of the card. -/
theorem c4_counterexample :
    Pipeline.columnOfReservation exCols "r1" = some "pending" ∧
    Pipeline.handleDragEnd exCols "r1" (some "pending") = some ("r1", "pending") := by
  refine ⟨rfl, rfl⟩

/-- C4 amended: a transition request is emitted on drag-end over a
target if and only if the dragged id resolves to a card and the id of
that card differs from the drop target id; the current column of the
card is never consulted, so a drop onto the column the card is already
in still emits a request targeting that column. -/
theorem c4_amended_emission_rule (columns : List Pipeline.PipelineColumn)
    (activeId overId : String) (r : Pipeline.PipelineReservation)
    (hfound : Pipeline.findReservation columns activeId = some r) :
    Pipeline.handleDragEnd columns activeId (some overId) =
      if r.id == overId then none else some (r.id, overId) := by
  unfold Pipeline.handleDragEnd
  rw [hfound]

/-- Witness for the amended C4 theorem at the concrete pipeline state:
the drop of r1 onto its own pending column emits the request. -/
theorem c4_amended_emission_rule_witness :
    Pipeline.handleDragEnd exCols "r1" (some "pending") = some ("r1", "pending") :=
  (c4_amended_emission_rule exCols "r1" "pending" ⟨"r1"⟩ (by decide)).trans (by decide)

/-- C5 counterexample: neither handler rejects a second transition
request issued before the first resolves.  Two successive calls of the
pipeline handleStatusChange from an empty log produce two mutations,
and a call of the CustomerDetailsView handleStatusChange while
submitting is already true (a request is in flight) still appends a
second mutation; there is no TransitionInFlight rejection anywhere. -/
theorem c5_counterexample :
    ((Pipeline.handleStatusChange (Pipeline.handleStatusChange ⟨[]⟩ "r1" "confirmed")
        "r1" "confirmed").calls).length = 2 ∧
    ((CustomerDetailsView.handleStatusChange
        ⟨true, [("r1", "confirmed", "Status zmieniony na: confirmed")]⟩
        "r1" "confirmed").calls).length = 2 := by
  refine ⟨rfl, rfl⟩

/-- C5 amended: transition requests are not serialized per reservation:
every invocation of either handleStatusChange appends exactly one
mutation to the log regardless of any in-flight request, so a second
request issued before the first resolves is also sent to the
persistence collaborator; no local TransitionInFlight rejection exists
(CustomerDetailsView merely disables its status buttons through the
submitting flag while a request is pending). -/
theorem c5_amended_no_serialization (s : Pipeline.MutationLog)
    (t : CustomerDetailsView.DetailsState) (rid newStatus : String) :
    (Pipeline.handleStatusChange s rid newStatus).calls = s.calls ++ [(rid, newStatus)] ∧
    (CustomerDetailsView.handleStatusChange t rid newStatus).calls =
      t.calls ++ [(rid, newStatus, "Status zmieniony na: " ++ newStatus)] :=
  ⟨rfl, rfl⟩

/-- C8: on every change notification the pipeline view is rebuilt by a
full resnapshot: for a successful fetch the new columns are exactly the
fetched snapshot, independently of the previous column state, and a
fetch carrying no columns replaces the previous state by the empty
list; the previous columns are never patched into the result. -/
theorem c8_resnapshot_replaces_columns (prev prev2 cols : List Pipeline.PipelineColumn) :
    Pipeline.onReservationsChange prev (Except.ok (some cols)) = cols ∧
    Pipeline.onReservationsChange prev (Except.ok (some cols)) =
      Pipeline.onReservationsChange prev2 (Except.ok (some cols)) ∧
    Pipeline.onReservationsChange prev (Except.ok none) = [] :=
  ⟨rfl, rfl, rfl⟩

/-- Example equipment line for the C9 witness. -/
def exEq : Equipment := ⟨"e1", "Kajak"⟩

/-- C9: building the grid is a pure deterministic function of its
inputs: two calls with identical equipment lines, reservations and
window yield structurally identical output.  The embedding is a plain
function because the source helpers perform no mutation. -/
theorem c9_buildGrid_deterministic (eq1 eq2 : List Equipment)
    (res1 res2 : List Reservation) (w1 w2 : Window)
    (he : eq1 = eq2) (hr : res1 = res2) (hw : w1 = w2) :
    buildGrid eq1 res1 w1 = buildGrid eq2 res2 w2 := by
  subst he; subst hr; subst hw; rfl

/-- Witness for C9 at a concrete input. -/
theorem c9_buildGrid_deterministic_witness :
    buildGrid [exEq] [exR21] exW2 = buildGrid [exEq] [exR21] exW2 :=
  c9_buildGrid_deterministic [exEq] [exEq] [exR21] [exR21] exW2 exW2 rfl rfl rfl

/-- Example window for the C6 witness: the month spans epoch days 100
to 130. -/
def exW6 : Window := ⟨⟨100, 1, 2⟩, ⟨130, 31, 2⟩⟩

/-- Example reservation for the C6 witness: it starts two days before
the month and ends on day 11 of it. -/
def exR6 : Reservation :=
  ⟨"r-c6", ⟨"Jan", "Kowalski"⟩, ⟨98, 29, 1⟩, ⟨110, 11, 2⟩, "08:00", "16:00", "confirmed", ["e1"]⟩

/-- C6: for a reservation intersecting the window, getReservationSpan
computes exactly the clipped closed interval: translating the 1-based
day numbers back to epoch days, startDay corresponds to
max(start, windowStart), endDay to min(end, windowEnd), and the span is
clippedEnd - clippedStart + 1 days (inclusive).  The dom hypotheses
state that getDate() of an in-month date is its 1-based offset from the
first day of the month and that the last day of the month carries the
month length, which hold for every real month window. -/
theorem c6_visible_span_clipping (r : Reservation) (w : Window)
    (hdomEnd : w.monthEnd.dom = w.monthEnd.abs - w.monthStart.abs + 1)
    (hord : r.start_date.abs ≤ r.end_date.abs)
    (hint1 : r.start_date.abs ≤ w.monthEnd.abs)
    (hint2 : w.monthStart.abs ≤ r.end_date.abs)
    (hcs : w.monthStart.abs ≤ r.start_date.abs → r.start_date.abs ≤ w.monthEnd.abs →
      r.start_date.dom = r.start_date.abs - w.monthStart.abs + 1)
    (hce : w.monthStart.abs ≤ r.end_date.abs → r.end_date.abs ≤ w.monthEnd.abs →
      r.end_date.dom = r.end_date.abs - w.monthStart.abs + 1) :
    w.monthStart.abs + (getReservationSpan r w).startDay - 1 =
      max r.start_date.abs w.monthStart.abs ∧
    w.monthStart.abs + (getReservationSpan r w).endDay - 1 =
      min r.end_date.abs w.monthEnd.abs ∧
    (getReservationSpan r w).span =
      min r.end_date.abs w.monthEnd.abs - max r.start_date.abs w.monthStart.abs + 1 := by
  have hds : w.monthStart.abs ≤ r.start_date.abs →
      r.start_date.dom = r.start_date.abs - w.monthStart.abs + 1 := fun h => hcs h hint1
  have hde : r.end_date.abs ≤ w.monthEnd.abs →
      r.end_date.dom = r.end_date.abs - w.monthStart.abs + 1 := fun h => hce hint2 h
  unfold getReservationSpan
  dsimp only
  by_cases h1 : r.start_date.abs < w.monthStart.abs
  · by_cases h2 : w.monthEnd.abs < r.end_date.abs
    · simp only [if_pos h1, if_pos h2]
      refine ⟨by omega, by omega, by omega⟩
    · have hd := hde (by omega)
      simp only [if_pos h1, if_neg h2]
      refine ⟨by omega, by omega, by omega⟩
  · have hs := hds (by omega)
    by_cases h2 : w.monthEnd.abs < r.end_date.abs
    · simp only [if_neg h1, if_pos h2]
      refine ⟨by omega, by omega, by omega⟩
    · have hd := hde (by omega)
      simp only [if_neg h1, if_neg h2]
      refine ⟨by omega, by omega, by omega⟩

/-- Witness for C6 at a concrete input: a reservation starting before
the month and ending inside it. -/
theorem c6_visible_span_clipping_witness :
    exW6.monthStart.abs + (getReservationSpan exR6 exW6).startDay - 1 =
      max exR6.start_date.abs exW6.monthStart.abs ∧
    exW6.monthStart.abs + (getReservationSpan exR6 exW6).endDay - 1 =
      min exR6.end_date.abs exW6.monthEnd.abs ∧
    (getReservationSpan exR6 exW6).span =
      min exR6.end_date.abs exW6.monthEnd.abs - max exR6.start_date.abs exW6.monthStart.abs + 1 :=
  c6_visible_span_clipping exR6 exW6 (by decide) (by decide) (by decide) (by decide)
    (by intro h _; exact absurd h (by decide)) (by intro _ _; decide)

/-- C7: when the visible spans of the reservations of a line are
pairwise disjoint, every reservation covering some day of the window is
emitted exactly once, anchored at its startDay offset and carrying its
span day-length: each covered day offset renders the anchored span when
it is the first visible day and a continuation (null, not independently
rendered) otherwise, and a span cell for the reservation can only occur
at its anchor offset with its span length. -/
theorem c7_unique_anchor_and_continuations (reservations : List Reservation)
    (equipmentId : String) (w : Window) (r : Reservation)
    (hmem : r ∈ reservations)
    (hitem : (r.reservation_items.any fun ri => ri == equipmentId) = true)
    (hdisj : ∀ b ∈ reservations,
      (b.reservation_items.any fun ri => ri == equipmentId) = true →
      ∀ d : Int, coversDay b w d = true → coversDay r w d = true → b = r) :
    (∀ i : Int, coversDay r w (i + 1) = true →
      cellRender reservations equipmentId w i =
        if i + 1 = (getReservationSpan r w).startDay then
          Cell.span r (getReservationSpan r w).span
        else Cell.continuation) ∧
    (∀ (i len : Int), cellRender reservations equipmentId w i = Cell.span r len →
      i + 1 = (getReservationSpan r w).startDay ∧ len = (getReservationSpan r w).span) := by
  constructor
  · intro i hcov
    have hrmem : r ∈ itemReservations reservations equipmentId :=
      List.mem_filter.mpr ⟨hmem, hitem⟩
    have hfind : (itemReservations reservations equipmentId).find?
        (fun b => coversDay b w (i + 1)) = some r := by
      refine find_eq_some_of_mem_unique _ _ r hrmem hcov ?_
      intro b hb hpb
      have hb' := List.mem_filter.mp hb
      exact hdisj b hb'.1 hb'.2 (i + 1) hpb hcov
    unfold cellRender
    rw [hfind]
  · intro i len h
    unfold cellRender at h
    cases hfind : (itemReservations reservations equipmentId).find?
        (fun b => coversDay b w (i + 1)) with
    | none => rw [hfind] at h; cases h
    | some b =>
      rw [hfind] at h
      dsimp only at h
      by_cases hanch : i + 1 = (getReservationSpan b w).startDay
      · rw [if_pos hanch] at h
        injection h with hbr hlen
        subst hbr
        exact ⟨hanch, hlen.symm⟩
      · rw [if_neg hanch] at h
        cases h

/-- Witness for C7 at a concrete input: the single reservation of days
1 to 5 is anchored at offset 0 with span 5. -/
theorem c7_unique_anchor_and_continuations_witness :
    cellRender [exR21] "e1" exW2 0 = Cell.span exR21 5 := by
  have h := (c7_unique_anchor_and_continuations [exR21] "e1" exW2 exR21
    (List.mem_singleton.mpr rfl) (by decide)
    (by intro b hb hany d h1 h2; exact List.mem_singleton.mp hb)).1 0 (by decide)
  rw [h]
  decide

/-- C10: the calendar query excludes cancelled reservations, so no grid
cell ever references a reservation whose status is cancelled. -/
theorem c10_no_cancelled_in_grid (db : List Reservation) (w : Window)
    (equipmentId : String) (i : Int) (r : Reservation) (len : Int)
    (h : cellRender (loadReservations db w) equipmentId w i = Cell.span r len) :
    ¬ r.status = "cancelled" := by
  intro hcan
  have hr : r ∈ loadReservations db w :=
    mem_of_cellRender_span (loadReservations db w) equipmentId w i r len h
  have hpred : reservationQueryPred w r = true := (List.mem_filter.mp hr).2
  unfold reservationQueryPred at hpred
  rw [hcan] at hpred
  simp at hpred

/-- Witness for C10 at a concrete input: the placed reservation of days
1 to 5 has a status different from cancelled. -/
theorem c10_no_cancelled_in_grid_witness :
    ¬ exR21.status = "cancelled" :=
  c10_no_cancelled_in_grid [exR21] exW2 "e1" 0 exR21 5 (by decide)

end Solrent
